import Mathlib

/-!
Verification of the django-nose plugin module (django_nose/plugin.py).

The module defines three nose plugins: ResultPlugin, DjangoSetUpPlugin, and
DjangoTestPlugin.  We give a shallow embedding: Python attribute values are a
small inductive type with Python truthiness, the Django settings object and
the nose test context become structures with optional fields, and the hooks
beforeTest and afterTest are embedded as the sequence of framework calls
(effects) they perform.
-/

/-- A dynamic Python value, covering the shapes relevant to the truthiness
checks in the plugin: None, booleans, integers and strings. -/
inductive PyVal : Type where
  | pyNone : PyVal
  | pyBool (b : Bool) : PyVal
  | pyInt (n : Int) : PyVal
  | pyStr (s : String) : PyVal
deriving DecidableEq, Repr

/-- Python truthiness of a value, as used by `if value:` and `not value`. -/
def truthy : PyVal → Bool
  | .pyNone => false
  | .pyBool b => b
  | .pyInt n => n != 0
  | .pyStr s => s != ""

/-- The Django settings object, restricted to the two attributes the plugin
probes.  `Option.none` models the attribute being absent (hasattr false). -/
structure Settings where
  DISABLE_TRANSACTION_MANAGEMENT : Option PyVal
  DATABASE_SUPPORTS_TRANSACTIONS : Option PyVal
deriving DecidableEq, Repr

/-- A nose test context (class, module or package scope); the plugin only
reads the optional `use_transaction` attribute. -/
structure Context where
  use_transaction : Option PyVal
deriving DecidableEq, Repr

/-- A test as seen by the plugin: its context, plus whether the test
instance is an instance of Django's own TestCase class. -/
structure Test where
  context : Context
  isDjangoTestCase : Bool
deriving DecidableEq, Repr

/-- The framework calls the per-test plugin can make, in the order it makes
them; the embedding of beforeTest and afterTest is the trace of these. -/
inductive Effect : Type where
  | resetOutbox : Effect
  | enter_transaction_management : Effect
  | managedTrue : Effect
  | disable_transaction_methods : Effect
  | restore_transaction_methods : Effect
  | rollback : Effect
  | leave_transaction_management : Effect
  | connectionClose : Effect
  | flush (verbosity : Nat) (interactive : Bool) : Effect
deriving DecidableEq, Repr

namespace DjangoTestPlugin

/-- DjangoTestPlugin._apply: the plugin applies to a test iff the test is
not an instance of Django's TestCase. -/
def _apply (test : Test) : Bool :=
  !test.isDjangoTestCase

/-- DjangoTestPlugin._has_transaction_support, line by line:
start from True; if the context has a `use_transaction` attribute take its
value; a truthy DISABLE_TRANSACTION_MANAGEMENT setting (getattr default
False) forces False; a present and falsy DATABASE_SUPPORTS_TRANSACTIONS
setting forces False.  The result is the raw Python value held in the local
`transaction_support`. -/
def _has_transaction_support (test : Test) (settings : Settings) : PyVal :=
  let transaction_support : PyVal := .pyBool true
  let transaction_support : PyVal :=
    match test.context.use_transaction with
    | some v => v
    | none => transaction_support
  let transaction_support : PyVal :=
    if truthy (settings.DISABLE_TRANSACTION_MANAGEMENT.getD (.pyBool false))
    then .pyBool false else transaction_support
  let transaction_support : PyVal :=
    match settings.DATABASE_SUPPORTS_TRANSACTIONS with
    | some v => if !truthy v then .pyBool false else transaction_support
    | none => transaction_support
  transaction_support

/-- DjangoTestPlugin.beforeTest as the trace of framework calls it makes:
nothing when inapplicable; otherwise reset the outbox, and when transaction
support resolves truthy, enter transaction management, mark it managed and
disable the test case transaction methods. -/
def beforeTest (test : Test) (settings : Settings) : List Effect :=
  if !(_apply test) then []
  else
    Effect.resetOutbox ::
      (if truthy (_has_transaction_support test settings) then
        [Effect.enter_transaction_management, Effect.managedTrue,
         Effect.disable_transaction_methods]
      else [])

/-- DjangoTestPlugin.afterTest as the trace of framework calls it makes:
nothing when inapplicable; otherwise, when transaction support resolves
truthy, restore the transaction methods, roll back, leave transaction
management and close the connection; when falsy, call the flush command
with verbosity 0 and interactive False. -/
def afterTest (test : Test) (settings : Settings) : List Effect :=
  if !(_apply test) then []
  else if truthy (_has_transaction_support test settings) then
    [Effect.restore_transaction_methods, Effect.rollback,
     Effect.leave_transaction_management, Effect.connectionClose]
  else
    [Effect.flush 0 false]

end DjangoTestPlugin

/-- The framework calls DjangoSetUpPlugin can make on its runner. -/
inductive SetupCall (α : Type) : Type where
  | setup_test_environment : SetupCall α
  | setup_databases : SetupCall α
  | teardown_databases (old_names : α) : SetupCall α
  | teardown_test_environment : SetupCall α
deriving DecidableEq, Repr

/-- The test runner held by DjangoSetUpPlugin, abstracted to the opaque
handle its setup_databases call returns. -/
structure Runner (α : Type) where
  setup_databases_result : α
deriving DecidableEq, Repr

/-- DjangoSetUpPlugin state: its runner, and the `old_names` slot which is
unset until begin runs. -/
structure DjangoSetUpPlugin (α : Type) where
  runner : Runner α
  old_names : Option α
deriving DecidableEq, Repr

/-- DjangoSetUpPlugin.begin: call setup_test_environment then
setup_databases, storing the returned handle in `old_names`.  Returns the
updated plugin state together with the trace of runner calls. -/
def DjangoSetUpPlugin.begin {α : Type} (p : DjangoSetUpPlugin α) :
    DjangoSetUpPlugin α × List (SetupCall α) :=
  ({ p with old_names := some p.runner.setup_databases_result },
   [SetupCall.setup_test_environment, SetupCall.setup_databases])

/-- DjangoSetUpPlugin.finalize: call teardown_databases with the stored
handle, then teardown_test_environment.  Reading `old_names` before begin
has run raises AttributeError in Python; that case is modelled as the empty
trace and is outside every claim. -/
def DjangoSetUpPlugin.finalize {α : Type} (p : DjangoSetUpPlugin α) :
    List (SetupCall α) :=
  match p.old_names with
  | some h => [SetupCall.teardown_databases h, SetupCall.teardown_test_environment]
  | none => []

open DjangoTestPlugin

/-- Closed form of the decision function: the DATABASE_SUPPORTS_TRANSACTIONS
override is strongest, then DISABLE_TRANSACTION_MANAGEMENT, then the context
attribute, then the default True. -/
theorem hts_closed_form (t : Test) (s : Settings) :
    _has_transaction_support t s =
      if s.DATABASE_SUPPORTS_TRANSACTIONS.elim false (fun w => !truthy w) then
        .pyBool false
      else if truthy (s.DISABLE_TRANSACTION_MANAGEMENT.getD (.pyBool false)) then
        .pyBool false
      else t.context.use_transaction.getD (.pyBool true) := by
  unfold _has_transaction_support
  cases s.DATABASE_SUPPORTS_TRANSACTIONS with
  | none => cases t.context.use_transaction <;> simp
  | some w => cases t.context.use_transaction <;> cases truthy w <;> simp

/-- C1: for a test whose context carries use_transaction=True, a truthy
DISABLE_TRANSACTION_MANAGEMENT setting makes the transaction-support
decision resolve false. -/
theorem C1_disable_setting_overrides_context (t : Test) (s : Settings)
    (hctx : t.context.use_transaction = some (.pyBool true))
    (hdis : truthy (s.DISABLE_TRANSACTION_MANAGEMENT.getD (.pyBool false)) = true) :
    truthy (_has_transaction_support t s) = false := by
  rw [hts_closed_form, hdis]
  split <;> simp [truthy]

/-- C1 witness at a concrete test and settings. -/
theorem C1_witness :
    (⟨⟨some (.pyBool true)⟩, false⟩ : Test).context.use_transaction
        = some (.pyBool true) ∧
    truthy ((⟨some (.pyBool true), none⟩ :
        Settings).DISABLE_TRANSACTION_MANAGEMENT.getD (.pyBool false)) = true ∧
    truthy (_has_transaction_support ⟨⟨some (.pyBool true)⟩, false⟩
        ⟨some (.pyBool true), none⟩) = false :=
  ⟨rfl, rfl, C1_disable_setting_overrides_context _ _ rfl rfl⟩

/-- C2: for an applicable test, afterTest performs exactly the restore /
rollback / leave / close sequence when the decision is truthy, and exactly
the flush command with verbosity 0 and interactive False when it is falsy. -/
theorem C2_afterTest_effects (t : Test) (s : Settings)
    (happ : _apply t = true) :
    (truthy (_has_transaction_support t s) = true →
      afterTest t s = [Effect.restore_transaction_methods, Effect.rollback,
        Effect.leave_transaction_management, Effect.connectionClose]) ∧
    (truthy (_has_transaction_support t s) = false →
      afterTest t s = [Effect.flush 0 false]) := by
  unfold afterTest
  rw [happ]
  constructor <;> intro h <;> simp [h]

/-- C2 witness: a plain test with no settings takes the transactional
path of afterTest. -/
theorem C2_witness :
    _apply ⟨⟨none⟩, false⟩ = true ∧
    truthy (_has_transaction_support ⟨⟨none⟩, false⟩ ⟨none, none⟩) = true ∧
    afterTest ⟨⟨none⟩, false⟩ ⟨none, none⟩ =
      [Effect.restore_transaction_methods, Effect.rollback,
       Effect.leave_transaction_management, Effect.connectionClose] :=
  ⟨rfl, rfl, (C2_afterTest_effects ⟨⟨none⟩, false⟩ ⟨none, none⟩ rfl).1 rfl⟩

/-- C3: for an applicable test, beforeTest always resets the outbox first,
and performs the enter-management / managed / disable-methods sequence
exactly when the decision is truthy, and nothing more when it is falsy. -/
theorem C3_beforeTest_effects (t : Test) (s : Settings)
    (happ : _apply t = true) :
    (truthy (_has_transaction_support t s) = true →
      beforeTest t s = [Effect.resetOutbox, Effect.enter_transaction_management,
        Effect.managedTrue, Effect.disable_transaction_methods]) ∧
    (truthy (_has_transaction_support t s) = false →
      beforeTest t s = [Effect.resetOutbox]) := by
  unfold beforeTest
  rw [happ]
  constructor <;> intro h <;> simp [h]

/-- C3 witness: with use_transaction=False in the context, beforeTest only
resets the outbox. -/
theorem C3_witness :
    _apply ⟨⟨some (.pyBool false)⟩, false⟩ = true ∧
    truthy (_has_transaction_support ⟨⟨some (.pyBool false)⟩, false⟩
        ⟨none, none⟩) = false ∧
    beforeTest ⟨⟨some (.pyBool false)⟩, false⟩ ⟨none, none⟩ =
      [Effect.resetOutbox] :=
  ⟨rfl, rfl,
   (C3_beforeTest_effects ⟨⟨some (.pyBool false)⟩, false⟩ ⟨none, none⟩ rfl).2 rfl⟩

/-- C4: for a test whose context carries use_transaction=True, a present
and False DATABASE_SUPPORTS_TRANSACTIONS setting makes the decision
resolve false. -/
theorem C4_db_capability_overrides_context (t : Test) (s : Settings)
    (hctx : t.context.use_transaction = some (.pyBool true))
    (hdb : s.DATABASE_SUPPORTS_TRANSACTIONS = some (.pyBool false)) :
    truthy (_has_transaction_support t s) = false := by
  rw [hts_closed_form, hdb]
  simp [truthy]

/-- C4 witness at a concrete test and settings. -/
theorem C4_witness :
    (⟨⟨some (.pyBool true)⟩, false⟩ : Test).context.use_transaction
        = some (.pyBool true) ∧
    (⟨none, some (.pyBool false)⟩ : Settings).DATABASE_SUPPORTS_TRANSACTIONS
        = some (.pyBool false) ∧
    truthy (_has_transaction_support ⟨⟨some (.pyBool true)⟩, false⟩
        ⟨none, some (.pyBool false)⟩) = false :=
  ⟨rfl, rfl, C4_db_capability_overrides_context _ _ rfl rfl⟩

/-- C5: a context-level use_transaction=False makes the decision resolve
false even with both global settings absent. -/
theorem C5_context_false_absent_settings (t : Test) (s : Settings)
    (hctx : t.context.use_transaction = some (.pyBool false))
    (hdis : s.DISABLE_TRANSACTION_MANAGEMENT = none)
    (hdb : s.DATABASE_SUPPORTS_TRANSACTIONS = none) :
    truthy (_has_transaction_support t s) = false := by
  rw [hts_closed_form, hctx, hdis, hdb]
  simp [truthy]

/-- C5 witness at a concrete test and settings. -/
theorem C5_witness :
    (⟨⟨some (.pyBool false)⟩, false⟩ : Test).context.use_transaction
        = some (.pyBool false) ∧
    (⟨none, none⟩ : Settings).DISABLE_TRANSACTION_MANAGEMENT = none ∧
    (⟨none, none⟩ : Settings).DATABASE_SUPPORTS_TRANSACTIONS = none ∧
    truthy (_has_transaction_support ⟨⟨some (.pyBool false)⟩, false⟩
        ⟨none, none⟩) = false :=
  ⟨rfl, rfl, rfl, C5_context_false_absent_settings _ _ rfl rfl rfl⟩

/-- C6: with no use_transaction attribute, DISABLE_TRANSACTION_MANAGEMENT
absent or false, and DATABASE_SUPPORTS_TRANSACTIONS absent, the decision
resolves true. -/
theorem C6_default_supported (t : Test) (s : Settings)
    (hctx : t.context.use_transaction = none)
    (hdis : truthy (s.DISABLE_TRANSACTION_MANAGEMENT.getD (.pyBool false)) = false)
    (hdb : s.DATABASE_SUPPORTS_TRANSACTIONS = none) :
    truthy (_has_transaction_support t s) = true := by
  rw [hts_closed_form, hctx, hdis, hdb]
  simp [truthy]

/-- C6 witness at a concrete test and settings. -/
theorem C6_witness :
    (⟨⟨none⟩, false⟩ : Test).context.use_transaction = none ∧
    truthy ((⟨none, none⟩ :
        Settings).DISABLE_TRANSACTION_MANAGEMENT.getD (.pyBool false)) = false ∧
    (⟨none, none⟩ : Settings).DATABASE_SUPPORTS_TRANSACTIONS = none ∧
    truthy (_has_transaction_support ⟨⟨none⟩, false⟩ ⟨none, none⟩) = true :=
  ⟨rfl, rfl, rfl, C6_default_supported _ _ rfl rfl rfl⟩

/-- C7: for an instance of Django's own TestCase, both beforeTest and
afterTest make no framework call at all. -/
theorem C7_django_testcase_noop (t : Test) (s : Settings)
    (h : t.isDjangoTestCase = true) :
    beforeTest t s = [] ∧ afterTest t s = [] := by
  constructor <;> simp [beforeTest, afterTest, _apply, h]

/-- C7 witness at a concrete Django TestCase instance. -/
theorem C7_witness :
    (⟨⟨none⟩, true⟩ : Test).isDjangoTestCase = true ∧
    beforeTest ⟨⟨none⟩, true⟩ ⟨none, none⟩ = [] ∧
    afterTest ⟨⟨none⟩, true⟩ ⟨none, none⟩ = [] :=
  ⟨rfl, (C7_django_testcase_noop _ ⟨none, none⟩ rfl).1,
   (C7_django_testcase_noop _ ⟨none, none⟩ rfl).2⟩

/-- C8: the transaction-support decision is a pure function of the test
context and the settings: two calls with equal context and equal settings
return equal results. -/
theorem C8_decision_pure (t1 t2 : Test) (s1 s2 : Settings)
    (hc : t1.context = t2.context) (hs : s1 = s2) :
    _has_transaction_support t1 s1 = _has_transaction_support t2 s2 := by
  subst hs
  unfold _has_transaction_support
  rw [hc]

/-- C8 witness: two distinct tests sharing a context get the same
decision. -/
theorem C8_witness :
    (⟨⟨none⟩, true⟩ : Test).context = (⟨⟨none⟩, false⟩ : Test).context ∧
    _has_transaction_support ⟨⟨none⟩, true⟩ ⟨none, none⟩ =
      _has_transaction_support ⟨⟨none⟩, false⟩ ⟨none, none⟩ :=
  ⟨rfl, C8_decision_pure _ _ _ _ rfl rfl⟩

/-- C9: begin calls environment setup then database setup and stores the
returned handle; finalize then calls database teardown with exactly that
handle, followed by environment teardown. -/
theorem C9_setup_plugin_contract {α : Type} (p : DjangoSetUpPlugin α) :
    p.begin.2 = [SetupCall.setup_test_environment, SetupCall.setup_databases] ∧
    p.begin.1.old_names = some p.runner.setup_databases_result ∧
    p.begin.1.finalize =
      [SetupCall.teardown_databases p.runner.setup_databases_result,
       SetupCall.teardown_test_environment] :=
  ⟨rfl, rfl, rfl⟩

/-- C10: the three configuration inputs are read by Python truthiness: a
falsy use_transaction value, a present falsy DATABASE_SUPPORTS_TRANSACTIONS
value, or a truthy DISABLE_TRANSACTION_MANAGEMENT value each force the
decision false; and when neither global override fires, the returned value
is the raw context attribute itself. -/
theorem C10_truthiness_semantics (t : Test) (s : Settings) :
    (∀ v, t.context.use_transaction = some v → truthy v = false →
      truthy (_has_transaction_support t s) = false) ∧
    (∀ v, s.DATABASE_SUPPORTS_TRANSACTIONS = some v → truthy v = false →
      truthy (_has_transaction_support t s) = false) ∧
    (∀ v, s.DISABLE_TRANSACTION_MANAGEMENT = some v → truthy v = true →
      truthy (_has_transaction_support t s) = false) ∧
    (∀ v, t.context.use_transaction = some v →
      truthy (s.DISABLE_TRANSACTION_MANAGEMENT.getD (.pyBool false)) = false →
      (∀ w, s.DATABASE_SUPPORTS_TRANSACTIONS = some w → truthy w = true) →
      _has_transaction_support t s = v) := by
  refine ⟨?_, ?_, ?_, ?_⟩
  · intro v hv hfv
    rw [hts_closed_form, hv]
    split
    · rfl
    · split
      · rfl
      · simpa using hfv
  · intro v hv hfv
    have hcond : (s.DATABASE_SUPPORTS_TRANSACTIONS.elim false fun w => !truthy w)
        = true := by
      rw [hv]
      simp [hfv]
    rw [hts_closed_form, hcond]
    rfl
  · intro v hv htv
    rw [hts_closed_form, hv]
    split
    · rfl
    · rw [Option.getD_some, htv]
      rfl
  · intro v hv hd hsup
    rw [hts_closed_form, hv, hd]
    cases hdb : s.DATABASE_SUPPORTS_TRANSACTIONS with
    | none => simp
    | some w => simp [hsup w hdb]

/-- C10 witness: the integer 0 as use_transaction is falsy and forces the
decision false. -/
theorem C10_witness :
    (⟨⟨some (.pyInt 0)⟩, false⟩ : Test).context.use_transaction
        = some (.pyInt 0) ∧
    truthy (.pyInt 0) = false ∧
    truthy (_has_transaction_support ⟨⟨some (.pyInt 0)⟩, false⟩
        ⟨none, none⟩) = false :=
  ⟨rfl, by decide,
   (C10_truthiness_semantics _ _).1 (.pyInt 0) rfl (by decide)⟩
